import Mathlib

/-!
Verification development for the quercle-js client library.

The definitions below are a shallow embedding of the TypeScript sources:
  - `src/errors.ts`   : the error taxonomy (class hierarchy flattened to a
    record carrying the runtime `name`, `message`, `statusCode`, `detail`).
  - `src/client.ts`   : the main `QuercleClient` (constructor resolution,
    `fetch`/`search` facades, `request`, `handleError`).
  - the generated-SDK package variant (its `resolveBaseUrl`, `resolveApiKey`
    and `search` body construction), which differs from the main client in
    configuration resolution and optional-field serialization.

JavaScript values decoded from JSON are modelled by the `Json` inductive;
nullish coalescing (`??`) over possibly-absent values is modelled on
`Option Json`, with `Json.null` treated as nullish when it is the value of
an object property.  Transport outcomes are modelled explicitly by
`FetchOutcome`, so that the `request` control flow (success, HTTP error,
abort, transport failure, body-decode failure) is a total function.
-/

/-- A JSON value as produced by `response.json()` / consumed by
`JSON.stringify`. -/
inductive Json where
  | str : String → Json
  | num : Int → Json
  | bool : Bool → Json
  | null : Json
  | arr : List Json → Json
  | obj : List (String × Json) → Json
deriving Repr, BEq

/-- JavaScript property access `j[key]` for decoded JSON values: defined on
objects, `undefined` (`none`) on every other non-null value.  (Access on
`null` throws in JavaScript; the one place the client accesses a property of
a decoded body wraps the access in `try`/`catch`, handled in
`errorDetail`.) -/
def jsGet (j : Json) (key : String) : Option Json :=
  match j with
  | .obj fields => fields.lookup key
  | _ => none

/-- `??`: nullish coalescing over possibly-undefined values. -/
def jsCoalesce {α : Type} : Option α → Option α → Option α
  | some v, _ => some v
  | none, b => b

/-- A property value of `Json.null` is nullish for `??`, exactly like an
absent (`undefined`) property. -/
def jsNonNull : Option Json → Option Json
  | some .null => none
  | o => o

/-- JavaScript string coercion of a decoded JSON value, as performed by a
template literal placeholder. -/
def jsToString : Json → String
  | .str s => s
  | .num n => toString n
  | .bool true => "true"
  | .bool false => "false"
  | .null => "null"
  | .arr elems => jsArrToString elems
  | .obj _ => "[object Object]"
where
  /-- `Array.prototype.toString` joins the coerced elements with commas. -/
  jsArrToString : List Json → String
  | [] => ""
  | [x] => jsToString x
  | x :: xs => jsToString x ++ "," ++ jsArrToString xs

/-- The runtime shape shared by every error class in `src/errors.ts`:
`name`, `message`, `statusCode`, optional `detail`.  Class identity is
captured by the `name` field each constructor assigns. -/
structure QuercleErr where
  name : String
  message : String
  statusCode : Nat
  detail : Option Json
deriving Repr, BEq

/-- `new QuercleError(message, statusCode, detail)` from `src/errors.ts`. -/
def quercleError (message : String) (statusCode : Nat) (detail : Option Json) : QuercleErr :=
  { name := "QuercleError", message := message, statusCode := statusCode, detail := detail }

/-- `new AuthenticationError(detail)` from `src/errors.ts`. -/
def authenticationError (detail : Option Json) : QuercleErr :=
  { name := "AuthenticationError",
    message := "Invalid or missing API key. Get one at https://quercle.dev",
    statusCode := 401, detail := detail }

/-- `new InsufficientCreditsError(detail)` from `src/errors.ts`. -/
def insufficientCreditsError (detail : Option Json) : QuercleErr :=
  { name := "InsufficientCreditsError",
    message := "Insufficient credits. Top up at https://quercle.dev",
    statusCode := 402, detail := detail }

/-- `new InactiveAccountError(detail)` from `src/errors.ts` (defined in the
taxonomy; the main client does not construct it). -/
def inactiveAccountError (detail : Option Json) : QuercleErr :=
  { name := "InactiveAccountError",
    message := "Account is inactive. Contact support at https://quercle.dev",
    statusCode := 403, detail := detail }

/-- `new NotFoundError(detail)` from `src/errors.ts` (defined in the
taxonomy; the main client does not construct it). -/
def notFoundError (detail : Option Json) : QuercleErr :=
  { name := "NotFoundError", message := "Resource not found",
    statusCode := 404, detail := detail }

/-- `new TimeoutError(detail)` from `src/errors.ts`. -/
def timeoutError (detail : Option Json) : QuercleErr :=
  { name := "TimeoutError", message := "Request timed out. Try a simpler query.",
    statusCode := 504, detail := detail }

/-- `QuercleConfig` from `src/types.ts`: all fields optional. -/
structure QuercleConfig where
  apiKey : Option String := none
  baseUrl : Option String := none
  timeout : Option Nat := none
deriving Repr

/-- The environment variables the library reads (`none` = unset). -/
structure Env where
  quercleApiKey : Option String := none
  quercleBaseUrl : Option String := none
deriving Repr

/-- `DEFAULT_BASE_URL` in `src/client.ts`. -/
def DEFAULT_BASE_URL : String := "https://quercle.dev"

/-- `DEFAULT_TIMEOUT` in `src/client.ts` (120 seconds). -/
def DEFAULT_TIMEOUT : Nat := 120000

/-- `String.prototype.trim`: remove leading and trailing whitespace.
Defined over the character list so that it computes by kernel reduction. -/
def jsTrim (s : String) : String :=
  ⟨((s.data.dropWhile Char.isWhitespace).reverse.dropWhile Char.isWhitespace).reverse⟩

/-- `.replace(/\/$/, "")`: remove one trailing slash if present.
Defined over the character list so that it computes by kernel reduction. -/
def stripTrailingSlash (s : String) : String :=
  if s.data.getLast? = some '/' then ⟨s.data.dropLast⟩ else s

/-- The immutable state a successfully constructed `QuercleClient` holds. -/
structure ResolvedConfig where
  apiKey : String
  baseUrl : String
  timeout : Nat
deriving Repr, BEq

/-- The `QuercleClient` constructor from `src/client.ts`:
`config.apiKey ?? process.env.QUERCLE_API_KEY`, reject when the resolved
key is absent or trims to empty, trim the stored key, default and strip the
base URL, default the timeout.  The base-URL environment variable is not
consulted here. -/
def mkClient (config : QuercleConfig) (env : Env) : Except QuercleErr ResolvedConfig :=
  match jsCoalesce config.apiKey env.quercleApiKey with
  | none => .error (authenticationError (some (.str "API key is required")))
  | some k =>
      if jsTrim k = "" then
        .error (authenticationError (some (.str "API key is required")))
      else
        .ok { apiKey := jsTrim k,
              baseUrl := stripTrailingSlash ((jsCoalesce config.baseUrl (some DEFAULT_BASE_URL)).getD DEFAULT_BASE_URL),
              timeout := (jsCoalesce config.timeout (some DEFAULT_TIMEOUT)).getD DEFAULT_TIMEOUT }

/-- The possible outcomes of one `fetch(...)` transport attempt, as the
`request` method in `src/client.ts` distinguishes them:
a response (status, status text, and the result of decoding its JSON body),
an `AbortError` (the cancellation timer fired), or any other transport
failure carrying the underlying failure message. -/
inductive FetchOutcome where
  | response (status : Nat) (statusText : String) (bodyParse : Except String Json)
  | abortError
  | transportError (message : String)
deriving Repr

/-- `detail` extraction in `handleError`:
`try { const body = await response.json(); detail = body.detail ?? body.message ?? ""; }
 catch { detail = response.statusText; }`.
A body that fails to decode, or a `null` body (property access throws),
degrades to the status text; property access on a non-object non-null body
yields `undefined` and falls through to `""`. -/
def errorDetail (bodyParse : Except String Json) (statusText : String) : Json :=
  match bodyParse with
  | .error _ => .str statusText
  | .ok .null => .str statusText
  | .ok body =>
      match jsCoalesce (jsNonNull (jsGet body "detail")) (jsNonNull (jsGet body "message")) with
      | some v => v
      | none => .str ""

/-- `handleError` from `src/client.ts`: the status switch producing the
structured error for a non-ok response. -/
def handleError (status : Nat) (statusText : String) (bodyParse : Except String Json) : QuercleErr :=
  let detail := errorDetail bodyParse statusText
  if status = 400 then
    quercleError ("Invalid request: " ++ jsToString detail) 400 (some detail)
  else if status = 401 then
    authenticationError (some detail)
  else if status = 402 then
    insufficientCreditsError (some detail)
  else if status = 403 then
    quercleError "Account inactive" 403 (some detail)
  else if status = 504 then
    timeoutError (some detail)
  else
    quercleError ("Quercle API error (" ++ toString status ++ "): " ++ jsToString detail)
      status (some detail)

/-- `response.ok`: the status is in the 2xx range. -/
def responseOk (status : Nat) : Bool :=
  200 ≤ status && status < 300

/-- The `request` method from `src/client.ts`, as a function of the
transport outcome.  On an ok response the body decode result is returned;
a decode failure there escapes to the catch-all branch (it is neither a
`QuercleError` nor an `AbortError`), producing the status-0 error.  On a
non-ok response `handleError` produces the structured error, rethrown
unchanged.  An `AbortError` becomes `new TimeoutError()`; any other
transport failure becomes the status-0 error carrying the failure
message. -/
def request (outcome : FetchOutcome) : Except QuercleErr Json :=
  match outcome with
  | .response status statusText bodyParse =>
      if responseOk status then
        match bodyParse with
        | .ok body => .ok body
        | .error msg => .error (quercleError ("Network error: " ++ msg) 0 none)
      else
        .error (handleError status statusText bodyParse)
  | .abortError => .error (timeoutError none)
  | .transportError msg => .error (quercleError ("Network error: " ++ msg) 0 none)

/-- `FetchResponseSchema.safeParse` from `src/types.ts`:
`z.object({ result: z.string() })` succeeds exactly on an object whose
`result` property is a string (unknown keys are ignored), yielding that
string. -/
def fetchResponseSchemaParse (j : Json) : Option String :=
  match j with
  | .obj fields =>
      match fields.lookup "result" with
      | some (.str s) => some s
      | _ => none
  | _ => none

/-- `SearchResponseSchema.safeParse` from `src/types.ts`: identical shape
to the fetch schema. -/
def searchResponseSchemaParse (j : Json) : Option String :=
  match j with
  | .obj fields =>
      match fields.lookup "result" with
      | some (.str s) => some s
      | _ => none
  | _ => none

/-- `QuercleError("Invalid response from API", 500)` thrown by the facades
on schema failure. -/
def invalidResponseError : QuercleErr :=
  quercleError "Invalid response from API" 500 none

/-- The result-processing part of `QuercleClient.fetch`: run the request,
validate the decoded body against the fetch schema, unwrap `result`. -/
def clientFetchResult (outcome : FetchOutcome) : Except QuercleErr String :=
  match request outcome with
  | .error e => .error e
  | .ok data =>
      match fetchResponseSchemaParse data with
      | some r => .ok r
      | none => .error invalidResponseError

/-- The result-processing part of `QuercleClient.search`: run the request,
validate the decoded body against the search schema, unwrap `result`. -/
def clientSearchResult (outcome : FetchOutcome) : Except QuercleErr String :=
  match request outcome with
  | .error e => .error e
  | .ok data =>
      match searchResponseSchemaParse data with
      | some r => .ok r
      | none => .error invalidResponseError

/-- `SearchOptions` from `src/types.ts`. -/
structure SearchOptions where
  allowedDomains : Option (List String) := none
  blockedDomains : Option (List String) := none
deriving Repr

/-- The `search` body construction in `src/client.ts`:
start from `{ query }`; add `allowed_domains` only when
`options?.allowedDomains?.length` is truthy (the option chain is defined
and the list is non-empty), and likewise `blocked_domains`.  The result is
the serialized object field list in insertion order. -/
def searchBody (query : String) (options : Option SearchOptions) : List (String × Json) :=
  [("query", .str query)]
    ++ (match options with
        | some o =>
            match o.allowedDomains with
            | some ds => if ds.length ≠ 0 then [("allowed_domains", .arr (ds.map .str))] else []
            | none => []
        | none => [])
    ++ (match options with
        | some o =>
            match o.blockedDomains with
            | some ds => if ds.length ≠ 0 then [("blocked_domains", .arr (ds.map .str))] else []
            | none => []
        | none => [])

/-- The `fetch` body construction in `src/client.ts`: `{ url, prompt }`. -/
def fetchBody (url prompt : String) : List (String × Json) :=
  [("url", .str url), ("prompt", .str prompt)]

/-- The endpoint path `request` is called with by `QuercleClient.fetch`. -/
def fetchEndpoint : String := "/api/v1/fetch"

/-- The endpoint path `request` is called with by `QuercleClient.search`. -/
def searchEndpoint : String := "/api/v1/search"

/-- The outgoing HTTP request `request` constructs. -/
structure HttpRequest where
  url : String
  method : String
  headers : List (String × String)
  body : List (String × Json)
deriving Repr

/-- Request construction in `request`:
`fetch(baseUrl + endpoint, { method: "POST", headers: ..., body: JSON.stringify(body) })`. -/
def buildRequest (c : ResolvedConfig) (endpoint : String) (body : List (String × Json)) : HttpRequest :=
  { url := c.baseUrl ++ endpoint,
    method := "POST",
    headers := [("Content-Type", "application/json"), ("X-API-Key", c.apiKey)],
    body := body }

/-- The request issued by `QuercleClient.fetch`. -/
def fetchRequest (c : ResolvedConfig) (url prompt : String) : HttpRequest :=
  buildRequest c fetchEndpoint (fetchBody url prompt)

/-- The request issued by `QuercleClient.search`. -/
def searchRequest (c : ResolvedConfig) (query : String) (options : Option SearchOptions) : HttpRequest :=
  buildRequest c searchEndpoint (searchBody query options)

/-- `DEFAULT_BASE_URL` of the generated-SDK package variant. -/
def SDK_DEFAULT_BASE_URL : String := "https://api.quercle.dev"

/-- `resolveBaseUrl` of the generated-SDK package variant:
`baseUrl ?? readEnv(BASE_URL_ENV) ?? DEFAULT_BASE_URL`. -/
def resolveBaseUrl (baseUrl : Option String) (env : Env) : String :=
  ((jsCoalesce baseUrl (jsCoalesce env.quercleBaseUrl (some SDK_DEFAULT_BASE_URL)))).getD SDK_DEFAULT_BASE_URL

/-- The `search` body construction of the generated-SDK package variant:
`if (options.allowedDomains) body.allowed_domains = options.allowedDomains`
— an array is always truthy in JavaScript, so a supplied empty array is
serialized; only an absent option is omitted. -/
def sdkSearchBody (query : String) (options : SearchOptions) : List (String × Json) :=
  [("query", .str query)]
    ++ (match options.allowedDomains with
        | some ds => [("allowed_domains", .arr (ds.map .str))]
        | none => [])
    ++ (match options.blockedDomains with
        | some ds => [("blocked_domains", .arr (ds.map .str))]
        | none => [])

/-- C2: client construction succeeds exactly when the resolved API key
(explicit option, else the API-key environment variable) trims to a
non-empty string; otherwise construction fails with an
AuthenticationError before anything else happens (construction is pure in
this model, so no network call is involved); on success the stored
`apiKey` is the resolved key with surrounding whitespace trimmed. -/
theorem mkClient_apiKey_resolution (config : QuercleConfig) (env : Env) :
    match jsCoalesce config.apiKey env.quercleApiKey with
    | none =>
        mkClient config env = .error (authenticationError (some (.str "API key is required")))
    | some k =>
        if jsTrim k = "" then
          mkClient config env = .error (authenticationError (some (.str "API key is required")))
        else
          ∃ c, mkClient config env = .ok c ∧ c.apiKey = jsTrim k := by
  rcases hk : jsCoalesce config.apiKey env.quercleApiKey with _ | k
  · simp only [mkClient, hk]
  · simp only [mkClient, hk]
    by_cases ht : jsTrim k = ""
    · simp only [ht, if_pos rfl, if_true]
    · simp only [if_neg ht]
      exact ⟨_, rfl, rfl⟩

/-- C9: an abort of the in-flight request (the cancellation timer fired
before any response) makes both facade operations reject with a
TimeoutError carrying statusCode 504 and no server-provided detail. -/
theorem abort_yields_timeout :
    clientFetchResult .abortError = .error (timeoutError none) ∧
    clientSearchResult .abortError = .error (timeoutError none) ∧
    (timeoutError none).name = "TimeoutError" ∧
    (timeoutError none).statusCode = 504 ∧
    (timeoutError none).detail = none :=
  ⟨rfl, rfl, rfl, rfl, rfl⟩

/-- C10: an explicit empty or whitespace-only `apiKey` option makes
construction fail with an AuthenticationError even when the API-key
environment variable holds a valid key, because the nullish-coalescing
fallback applies only to an absent option; with the option absent, the
same environment key makes construction succeed. -/
theorem explicit_empty_key_never_falls_back (explicitKey envKey : String)
    (hexp : jsTrim explicitKey = "") (henv : jsTrim envKey ≠ "") :
    mkClient { apiKey := some explicitKey } { quercleApiKey := some envKey } =
      .error (authenticationError (some (.str "API key is required"))) ∧
    mkClient { apiKey := none } { quercleApiKey := some envKey } =
      .ok { apiKey := jsTrim envKey, baseUrl := DEFAULT_BASE_URL, timeout := DEFAULT_TIMEOUT } := by
  constructor
  · simp [mkClient, jsCoalesce, hexp]
  · simp [mkClient, jsCoalesce, henv]
    rfl

/-- Witness for C10 at a concrete whitespace-only explicit key and a
concrete valid environment key. -/
theorem explicit_empty_key_never_falls_back_witness :
    (jsTrim "   " = "" ∧ jsTrim "qk_live" ≠ "") ∧
    mkClient { apiKey := some "   " } { quercleApiKey := some "qk_live" } =
      .error (authenticationError (some (.str "API key is required"))) :=
  ⟨⟨by decide, by decide⟩,
    (explicit_empty_key_never_falls_back "   " "qk_live" (by decide) (by decide)).1⟩

/-- C1: for every non-2xx response the error produced by `request` is the
one `handleError` determines from the status alone: 401 gives an
AuthenticationError with statusCode 401, 402 an InsufficientCreditsError
with statusCode 402, 403 the inactive-account kind (message
"Account inactive") with statusCode 403, 504 a TimeoutError with
statusCode 504, 400 an error whose message begins "Invalid request: " with
statusCode 400, and every other non-2xx status the generic API error
carrying that exact status; the mapping is a total function of the status,
hence deterministic. -/
theorem handleError_status_mapping (status : Nat) (statusText : String)
    (bodyParse : Except String Json) (hns : status < 200 ∨ 300 ≤ status) :
    request (.response status statusText bodyParse) =
      .error (handleError status statusText bodyParse) ∧
    (status = 401 →
      (handleError status statusText bodyParse).name = "AuthenticationError" ∧
      (handleError status statusText bodyParse).statusCode = 401) ∧
    (status = 402 →
      (handleError status statusText bodyParse).name = "InsufficientCreditsError" ∧
      (handleError status statusText bodyParse).statusCode = 402) ∧
    (status = 403 →
      (handleError status statusText bodyParse).message = "Account inactive" ∧
      (handleError status statusText bodyParse).statusCode = 403) ∧
    (status = 504 →
      (handleError status statusText bodyParse).name = "TimeoutError" ∧
      (handleError status statusText bodyParse).statusCode = 504) ∧
    (status = 400 →
      (handleError status statusText bodyParse).statusCode = 400 ∧
      ∃ rest, (handleError status statusText bodyParse).message = "Invalid request: " ++ rest) ∧
    (status ≠ 400 → status ≠ 401 → status ≠ 402 → status ≠ 403 → status ≠ 504 →
      (handleError status statusText bodyParse).name = "QuercleError" ∧
      (handleError status statusText bodyParse).statusCode = status) := by
  have hok : responseOk status = false := by
    simp only [responseOk, Bool.and_eq_false_iff, decide_eq_false_iff_not, not_le, not_lt]
    omega
  refine ⟨by simp [request, hok], ?_, ?_, ?_, ?_, ?_, ?_⟩
  · intro h; subst h; exact ⟨rfl, rfl⟩
  · intro h; subst h; exact ⟨rfl, rfl⟩
  · intro h; subst h; exact ⟨rfl, rfl⟩
  · intro h; subst h; exact ⟨rfl, rfl⟩
  · intro h; subst h
    exact ⟨rfl, jsToString (errorDetail bodyParse statusText), rfl⟩
  · intro h400 h401 h402 h403 h504
    simp only [handleError, if_neg h400, if_neg h401, if_neg h402, if_neg h403, if_neg h504]
    exact ⟨rfl, rfl⟩

/-- Witness for C1 at the concrete non-2xx status 404 with a concrete
error body. -/
theorem handleError_status_mapping_witness :
    ((404 : Nat) < 200 ∨ 300 ≤ (404 : Nat)) ∧
    (handleError 404 "Not Found" (.ok (.obj [("detail", .str "missing")]))).name = "QuercleError" ∧
    (handleError 404 "Not Found" (.ok (.obj [("detail", .str "missing")]))).statusCode = 404 :=
  ⟨by decide,
    (handleError_status_mapping 404 "Not Found" (.ok (.obj [("detail", .str "missing")]))
        (by decide)).2.2.2.2.2.2
      (by decide) (by decide) (by decide) (by decide) (by decide)⟩

/-- C3: for a 2xx response whose decoded body is an object with a string
`result` field, both facades return exactly that string (any string,
including the empty one); for every other decoded 2xx body (non-object,
missing `result`, or non-string `result`) both facades reject with the
InvalidResponseError whose message is "Invalid response from API" and
whose statusCode is 500, regardless of any other fields present. -/
theorem facade_result_validation (status : Nat) (statusText : String) (body : Json)
    (h2xx : 200 ≤ status ∧ status < 300) :
    match body with
    | .obj fields =>
        match fields.lookup "result" with
        | some (.str X) =>
            clientFetchResult (.response status statusText (.ok body)) = .ok X ∧
            clientSearchResult (.response status statusText (.ok body)) = .ok X
        | _ =>
            clientFetchResult (.response status statusText (.ok body)) = .error invalidResponseError ∧
            clientSearchResult (.response status statusText (.ok body)) = .error invalidResponseError ∧
            invalidResponseError.message = "Invalid response from API" ∧
            invalidResponseError.statusCode = 500
    | _ =>
        clientFetchResult (.response status statusText (.ok body)) = .error invalidResponseError ∧
        clientSearchResult (.response status statusText (.ok body)) = .error invalidResponseError ∧
        invalidResponseError.message = "Invalid response from API" ∧
        invalidResponseError.statusCode = 500 := by
  have hok : responseOk status = true := by
    simp only [responseOk, Bool.and_eq_true, decide_eq_true_eq]
    omega
  have hreq : request (.response status statusText (.ok body)) = .ok body := by
    simp [request, hok]
  rcases body with s | n | b | _ | elems | fields
  case obj =>
    rcases hres : fields.lookup "result" with _ | v
    · simp [clientFetchResult, clientSearchResult, hreq,
        fetchResponseSchemaParse, searchResponseSchemaParse, hres, invalidResponseError,
        quercleError]
    · rcases v with s | n | b | _ | elems | f <;>
        simp [clientFetchResult, clientSearchResult, hreq,
          fetchResponseSchemaParse, searchResponseSchemaParse, hres, invalidResponseError,
          quercleError]
  all_goals
    simp [clientFetchResult, clientSearchResult, hreq,
      fetchResponseSchemaParse, searchResponseSchemaParse, invalidResponseError, quercleError]

/-- Witness for C3 at status 200 with a body carrying `result` and an
extra field. -/
theorem facade_result_validation_witness :
    ((200 : Nat) ≤ 200 ∧ (200 : Nat) < 300) ∧
    (clientFetchResult (.response 200 "OK" (.ok (.obj [("result", .str "hello"), ("extra", .num 3)]))) = .ok "hello" ∧
     clientSearchResult (.response 200 "OK" (.ok (.obj [("result", .str "hello"), ("extra", .num 3)]))) = .ok "hello") :=
  ⟨by decide,
    facade_result_validation 200 "OK" (.obj [("result", .str "hello"), ("extra", .num 3)])
      (by decide)⟩

/-- The structured error produced for a non-ok response never has status
code 0 when the response status is a genuine HTTP status (at least 100). -/
theorem handleError_statusCode_ne_zero (status : Nat) (statusText : String)
    (bodyParse : Except String Json) (h : 100 ≤ status) :
    (handleError status statusText bodyParse).statusCode ≠ 0 := by
  unfold handleError
  split_ifs <;>
    simp [quercleError, authenticationError, insufficientCreditsError, timeoutError]
  omega

/-- Counterexample to C4: a call in which an HTTP response was received
(status 200) but its body fails to decode as JSON still produces an error
with statusCode 0, through the catch-all branch of `request`. -/
theorem request_zero_status_counterexample :
    request (.response 200 "OK" (.error "Unexpected end of JSON input")) =
      .error (quercleError "Network error: Unexpected end of JSON input" 0 none) ∧
    (quercleError "Network error: Unexpected end of JSON input" 0 none).statusCode = 0 :=
  ⟨rfl, rfl⟩

/-- C4 as amended: among the errors `request` produces, statusCode 0 occurs
exactly for the failures reaching the catch-all branch — transport-level
failures with no HTTP response, and also 2xx responses whose body fails to
decode as JSON — and every statusCode-0 error has a message of the form
"Network error: " followed by the underlying failure description.  (The
hypothesis restricts response outcomes to genuine HTTP statuses,
at least 100.) -/
theorem request_zero_status (outcome : FetchOutcome)
    (hstatus : ∀ s st bp, outcome = .response s st bp → 100 ≤ s)
    (e : QuercleErr) (he : request outcome = .error e) :
    (e.statusCode = 0 ↔
      (∃ m, outcome = .transportError m) ∨
      (∃ s st m, outcome = .response s st (.error m) ∧ 200 ≤ s ∧ s < 300)) ∧
    (e.statusCode = 0 → ∃ m, e.message = "Network error: " ++ m) := by
  rcases outcome with ⟨s, st, bp⟩ | _ | m
  · have hs : 100 ≤ s := hstatus s st bp rfl
    rcases hok : responseOk s with _ | _
    · have hr : request (.response s st bp) = .error (handleError s st bp) := by
        simp [request, hok]
      rw [hr] at he
      injection he with he2
      subst he2
      have hne := handleError_statusCode_ne_zero s st bp hs
      refine ⟨⟨fun h0 => absurd h0 hne, ?_⟩, fun h0 => absurd h0 hne⟩
      rintro (⟨m, hm⟩ | ⟨s2, st2, m, hm, h2a, h2b⟩)
      · exact FetchOutcome.noConfusion hm
      · injection hm with h1 h2 h3
        subst h1
        have htrue : responseOk s = true := by
          simp only [responseOk, Bool.and_eq_true, decide_eq_true_eq]
          omega
        rw [htrue] at hok
        exact Bool.noConfusion hok
    · have hrange : 200 ≤ s ∧ s < 300 := by
        simp only [responseOk, Bool.and_eq_true, decide_eq_true_eq] at hok
        exact hok
      cases bp with
      | ok body =>
        have hr : request (.response s st (.ok body)) = .ok body := by
          simp [request, hok]
        rw [hr] at he
        exact Except.noConfusion he
      | error msg =>
        have hr : request (.response s st (.error msg)) =
            .error (quercleError ("Network error: " ++ msg) 0 none) := by
          simp [request, hok]
        rw [hr] at he
        injection he with he2
        subst he2
        exact ⟨⟨fun _ => Or.inr ⟨s, st, msg, rfl, hrange.1, hrange.2⟩, fun _ => rfl⟩,
          fun _ => ⟨msg, rfl⟩⟩
  · have hr : request .abortError = .error (timeoutError none) := rfl
    rw [hr] at he
    injection he with he2
    subst he2
    refine ⟨⟨?_, ?_⟩, ?_⟩
    · intro h0
      exact absurd h0 (by simp [timeoutError])
    · rintro (⟨m, hm⟩ | ⟨s2, st2, m, hm, _, _⟩) <;> exact FetchOutcome.noConfusion hm
    · intro h0
      exact absurd h0 (by simp [timeoutError])
  · have hr : request (.transportError m) =
        .error (quercleError ("Network error: " ++ m) 0 none) := rfl
    rw [hr] at he
    injection he with he2
    subst he2
    exact ⟨⟨fun _ => Or.inl ⟨m, rfl⟩, fun _ => rfl⟩, fun _ => ⟨m, rfl⟩⟩

/-- Witness for C4 (as amended) at a concrete connection-refused transport
failure. -/
theorem request_zero_status_witness :
    request (.transportError "connection refused") =
      .error (quercleError "Network error: connection refused" 0 none) ∧
    ∃ m, (quercleError "Network error: connection refused" 0 none).message = "Network error: " ++ m :=
  ⟨rfl,
    (request_zero_status (.transportError "connection refused")
        (fun _ _ _ h => nomatch h)
        (quercleError "Network error: connection refused" 0 none) rfl).2 rfl⟩

/-- Counterexample to C5: the endpoint paths carry the `/api` segment, so
the URLs issued are not `B ++ "/v1/fetch"` and `B ++ "/v1/search"`. -/
theorem endpoint_paths_counterexample :
    (fetchRequest { apiKey := "k", baseUrl := "https://quercle.dev", timeout := 120000 }
        "https://example.com" "p").url ≠ "https://quercle.dev" ++ "/v1/fetch" ∧
    (searchRequest { apiKey := "k", baseUrl := "https://quercle.dev", timeout := 120000 }
        "q" none).url ≠ "https://quercle.dev" ++ "/v1/search" := by
  constructor <;> decide

/-- C5 as amended: for a client with resolved base URL B, `fetch` issues a
POST to exactly `B ++ "/api/v1/fetch"` with JSON body `{url, prompt}`, and
`search` issues a POST to exactly `B ++ "/api/v1/search"` with a JSON body
whose first field is `query` (plus the optional domain-filter fields). -/
theorem endpoint_paths (c : ResolvedConfig) (url prompt query : String)
    (options : Option SearchOptions) :
    fetchRequest c url prompt =
      { url := c.baseUrl ++ "/api/v1/fetch", method := "POST",
        headers := [("Content-Type", "application/json"), ("X-API-Key", c.apiKey)],
        body := [("url", .str url), ("prompt", .str prompt)] } ∧
    (searchRequest c query options).url = c.baseUrl ++ "/api/v1/search" ∧
    (searchRequest c query options).method = "POST" ∧
    (searchRequest c query options).body = searchBody query options ∧
    (searchBody query options).lookup "query" = some (.str query) :=
  ⟨rfl, rfl, rfl, rfl, rfl⟩

/-- Counterexample to C6: a 404 response is mapped by `handleError` to the
generic branch — a base QuercleError with the generic message — not to the
NotFoundError kind with message "Resource not found". -/
theorem notFound_counterexample :
    (handleError 404 "Not Found" (.ok (.obj [("detail", .str "missing")]))).name ≠ "NotFoundError" ∧
    (handleError 404 "Not Found" (.ok (.obj [("detail", .str "missing")]))).message ≠ "Resource not found" ∧
    (handleError 404 "Not Found" (.ok (.obj [("detail", .str "missing")]))).message =
      "Quercle API error (404): missing" ∧
    (handleError 404 "Not Found" (.ok (.obj [("detail", .str "missing")]))).statusCode = 404 := by
  refine ⟨by decide, by decide, rfl, rfl⟩

/-- C6 as amended: every 404 response falls to the default branch of the
status switch: the client rejects with a base QuercleError whose statusCode
is 404 and whose message is "Quercle API error (404): " followed by the
extracted detail; the NotFoundError kind (fixed message
"Resource not found", status 404) exists in the taxonomy but is never
produced by the client. -/
theorem notFound_is_generic (statusText : String) (bodyParse : Except String Json) :
    (handleError 404 statusText bodyParse).name = "QuercleError" ∧
    (handleError 404 statusText bodyParse).statusCode = 404 ∧
    (∃ d, (handleError 404 statusText bodyParse).message = "Quercle API error (404): " ++ d) ∧
    (notFoundError none).name = "NotFoundError" ∧
    (notFoundError none).message = "Resource not found" ∧
    (notFoundError none).statusCode = 404 :=
  ⟨rfl, rfl, ⟨jsToString (errorDetail bodyParse statusText), rfl⟩, rfl, rfl, rfl⟩

/-- Counterexample to C7: in the generated-SDK package variant, a search
call whose allowedDomains option is an explicitly supplied empty array
serializes the `allowed_domains` key as `[]` instead of omitting it. -/
theorem emptyDomains_counterexample :
    (sdkSearchBody "q" { allowedDomains := some [], blockedDomains := none }).lookup
        "allowed_domains" = some (.arr []) ∧
    (sdkSearchBody "q" { allowedDomains := some [], blockedDomains := none }) =
      [("query", .str "q"), ("allowed_domains", .arr [])] :=
  ⟨rfl, rfl⟩

/-- C7 as amended: in the main client, `allowed_domains` (resp.
`blocked_domains`) is omitted from the serialized search body exactly when
the option is undefined or an empty array, and a non-empty array is
serialized exactly, element for element, in order, under the snake_case
name; the generated-SDK package variant omits the key only when the option
is undefined — a supplied array, empty included, is always serialized. -/
theorem searchBody_optional_fields (query : String) (o : SearchOptions) :
    ((searchBody query (some o)).lookup "allowed_domains" =
      match o.allowedDomains with
      | none => none
      | some [] => none
      | some ds => some (.arr (ds.map .str))) ∧
    ((searchBody query (some o)).lookup "blocked_domains" =
      match o.blockedDomains with
      | none => none
      | some [] => none
      | some ds => some (.arr (ds.map .str))) ∧
    ((searchBody query none).lookup "allowed_domains" = none) ∧
    ((searchBody query none).lookup "blocked_domains" = none) ∧
    ((sdkSearchBody query o).lookup "allowed_domains" =
      match o.allowedDomains with
      | none => none
      | some ds => some (.arr (ds.map .str))) ∧
    ((sdkSearchBody query o).lookup "blocked_domains" =
      match o.blockedDomains with
      | none => none
      | some ds => some (.arr (ds.map .str))) := by
  obtain ⟨ad, bd⟩ := o
  rcases ad with _ | ⟨_ | ⟨a, as⟩⟩ <;> rcases bd with _ | ⟨_ | ⟨b, bs⟩⟩ <;>
    simp [searchBody, sdkSearchBody, List.lookup]

/-- Counterexample to C8: the main client resolves the base URL with no
explicit option to the hardcoded default even when the base-URL
environment variable is set, so the environment variable does not win over
the default there. -/
theorem baseUrl_env_counterexample :
    mkClient { apiKey := some "k" } { quercleBaseUrl := some "https://env.example" } =
      .ok { apiKey := "k", baseUrl := "https://quercle.dev", timeout := 120000 } ∧
    "https://quercle.dev" ≠ "https://env.example" :=
  ⟨rfl, by decide⟩

/-- C8 as amended: in the main client an explicit apiKey wins over the
API-key environment variable (no hardcoded default), an explicit baseUrl
wins over the hardcoded production default with the base-URL environment
variable never consulted, and an absent timeout resolves to 120000 ms; the
generated-SDK package variant does resolve its base URL as explicit option
over environment variable over its own default. -/
theorem config_precedence (config : QuercleConfig) (env : Env) (c : ResolvedConfig)
    (h : mkClient config env = .ok c) :
    (∀ k, config.apiKey = some k → c.apiKey = jsTrim k) ∧
    (config.apiKey = none → ∀ k, env.quercleApiKey = some k → c.apiKey = jsTrim k) ∧
    (∀ b, config.baseUrl = some b → c.baseUrl = stripTrailingSlash b) ∧
    (config.baseUrl = none → c.baseUrl = DEFAULT_BASE_URL) ∧
    (∀ t, config.timeout = some t → c.timeout = t) ∧
    (config.timeout = none → c.timeout = DEFAULT_TIMEOUT) ∧
    (∀ b, resolveBaseUrl (some b) env = b) ∧
    (resolveBaseUrl none env =
      match env.quercleBaseUrl with
      | some e => e
      | none => SDK_DEFAULT_BASE_URL) := by
  have hsdk1 : ∀ b, resolveBaseUrl (some b) env = b := fun b => rfl
  have hsdk2 : resolveBaseUrl none env =
      match env.quercleBaseUrl with
      | some e => e
      | none => SDK_DEFAULT_BASE_URL := by
    rcases henv : env.quercleBaseUrl with _ | e <;>
      simp [resolveBaseUrl, jsCoalesce, henv]
  rcases hak : config.apiKey with _ | k
  · rcases hek : env.quercleApiKey with _ | k
    · simp [mkClient, jsCoalesce, hak, hek] at h
    · by_cases ht : jsTrim k = ""
      · simp [mkClient, jsCoalesce, hak, hek, ht] at h
      · simp only [mkClient, jsCoalesce, hak, hek, if_neg ht, Except.ok.injEq] at h
        subst h
        refine ⟨?_, ?_, ?_, ?_, ?_, ?_, hsdk1, hsdk2⟩
        · intro k2 hk2
          exact Option.noConfusion hk2
        · intro _ k2 hk2
          injection hk2 with hk2
          subst hk2
          rfl
        · intro b hb
          rw [hb]; rfl
        · intro hb
          rw [hb]; rfl
        · intro t ht2
          rw [ht2]; rfl
        · intro ht2
          rw [ht2]; rfl
  · by_cases ht : jsTrim k = ""
    · simp [mkClient, jsCoalesce, hak, ht] at h
    · simp only [mkClient, jsCoalesce, hak, if_neg ht, Except.ok.injEq] at h
      subst h
      refine ⟨?_, ?_, ?_, ?_, ?_, ?_, hsdk1, hsdk2⟩
      · intro k2 hk2
        injection hk2 with hk2
        subst hk2
        rfl
      · intro hnone
        exact Option.noConfusion hnone
      · intro b hb
        rw [hb]; rfl
      · intro hb
        rw [hb]; rfl
      · intro t ht2
        rw [ht2]; rfl
      · intro ht2
        rw [ht2]; rfl

/-- Witness for C8 (as amended) at a concrete configuration exercising the
explicit options. -/
theorem config_precedence_witness :
    mkClient { apiKey := some " k ", baseUrl := some "https://x/", timeout := some 5 } {} =
      .ok { apiKey := "k", baseUrl := "https://x", timeout := 5 } ∧
    ("https://x" : String) = stripTrailingSlash "https://x/" :=
  ⟨rfl,
    (config_precedence { apiKey := some " k ", baseUrl := some "https://x/", timeout := some 5 }
        {} { apiKey := "k", baseUrl := "https://x", timeout := 5 } rfl).2.2.1
      "https://x/" rfl⟩
